import Mathlib

/-!
Verification of the BigQuery→Clickhouse replication pipeline
(`warehouse/oso_dagster/factories/bq2clickhouse.py`).

The pure parts of the source (the type map `COLUMN_MAP`, the column
translation `get_bq_table_columns`, the staging-table-name derivation) are
embedded directly as Lean functions.  The effectful asset body
`bq2clickhouse_asset` is embedded as a function from a configuration and a
description of the external clients' behaviour (which calls succeed) to the
ordered trace of external calls it performs, the final state of the staged
objects, and the returned materialization result, with Python exceptions
modelled as an absent result.
-/

namespace Oso

/-- Mirrors `GCS_BUCKET_DIRECTORY` in the source: the folder in the GCS
bucket where the data is staged. -/
def GCS_BUCKET_DIRECTORY : String := "bq2clickhouse"

/-- Mirrors `COLUMN_MAP` in the source: the map from BigQuery column types to
Clickhouse types, with `dict.get` semantics (`none` for an absent key). -/
def COLUMN_MAP : String → Option String
  | "STRING" => some "String"
  | "FLOAT" => some "Float32"
  | "FLOAT64" => some "Float64"
  | "INTEGER" => some "Int64"
  | "INT64" => some "Int64"
  | "TIMESTAMP" => some "DateTime"
  | "DATETIME" => some "DateTime"
  | "DATE" => some "Date"
  | "BYTES" => some "String"
  | "BOOL" => some "Boolean"
  | "BOOLEAN" => some "Boolean"
  | "NUMERIC" => some "Decimal"
  | "DECIMAL" => some "Decimal"
  | "BIGNUMERIC" => some "Decimal256"
  | "BIGDECIMAL" => some "Decimal256"
  | "TIME" => some "DateTime"
  | "JSON" => some "JSON"
  | _ => none

/-- Message of the `UnsupportedTableColumn` exception raised by
`get_bq_table_columns`: `'Field "%s" has unsupported type "%s"'`. -/
def unsupportedColumnMsg (name ftype : String) : String :=
  "Field \"" ++ name ++ "\" has unsupported type \"" ++ ftype ++ "\""

/-- Mirrors the loop body of `get_bq_table_columns` in the source.  The table
schema fetched from BigQuery is the input, as a list of
`(f.name, f.field_type)` pairs in source order; the result is the list of
`(name, clickhouse_type)` pairs, or the message of the first
`UnsupportedTableColumn` raised. -/
def get_bq_table_columns : List (String × String) → Except String (List (String × String))
  | [] => Except.ok []
  | (name, field_type) :: rest =>
    if field_type = "RECORD" ∨ field_type = "STRUCT" then
      Except.error (unsupportedColumnMsg name field_type)
    else
      match COLUMN_MAP field_type with
      | none => Except.error (unsupportedColumnMsg name field_type)
      | some column_type =>
        match get_bq_table_columns rest with
        | Except.error e => Except.error e
        | Except.ok cols => Except.ok ((name, column_type) :: cols)

/-- A source column type is supported exactly when `COLUMN_MAP` has an entry
for it (the two composite types `RECORD`/`STRUCT` have no entry). -/
def supportedType (t : String) : Bool := (COLUMN_MAP t).isSome

/-- First column of a schema whose type is unsupported, in source order. -/
def firstUnsupported (schema : List (String × String)) : Option (String × String) :=
  schema.find? (fun p => ! supportedType p.2)

/-- Python `str.replace("-", "_")` on a one-character pattern: a
character-wise substitution. -/
def pyReplaceDashUnderscore (s : String) : String :=
  String.mk (s.data.map (fun c => if c = '-' then '_' else c))

/-- Python `str.rstrip("_")`: remove every trailing underscore. -/
def pyRstripUnderscore (s : String) : String :=
  String.mk ((s.data.reverse.dropWhile (fun c => c = '_')).reverse)

/-- Python slice `s[0:63]`: the first 63 characters. -/
def pySlice63 (s : String) : String :=
  String.mk (s.data.take 63)

/-- Mirrors the derivation of `temp_dest` in `bq2clickhouse_asset`:
`"%s_%s" % (destination_table_name, sync_id.replace("-", "_"))`, truncated
to 63 characters with trailing underscores stripped when it is longer. -/
def tempDest (destination_table_name sync_id : String) : String :=
  let t := destination_table_name ++ "_" ++ pyReplaceDashUnderscore sync_id
  if t.length > 63 then pyRstripUnderscore (pySlice63 t) else t

/-! ### Helper lemmas -/

theorem head?_dropWhile_ne {α : Type} (p : α → Bool) :
    ∀ (l : List α) (a : α), (l.dropWhile p).head? = some a → p a = false := by
  intro l
  induction l with
  | nil => intro a h; simp [List.dropWhile] at h
  | cons x xs ih =>
    intro a h
    cases hx : p x with
    | true =>
      rw [List.dropWhile_cons_of_pos hx] at h
      exact ih a h
    | false =>
      rw [List.dropWhile_cons_of_neg (by simp [hx])] at h
      simp at h
      subst h
      exact hx

theorem length_dropWhile_le' {α : Type} (p : α → Bool) (l : List α) :
    (l.dropWhile p).length ≤ l.length := by
  induction l with
  | nil => simp [List.dropWhile]
  | cons x xs ih =>
    cases hx : p x with
    | true =>
      rw [List.dropWhile_cons_of_pos hx]
      exact Nat.le_trans ih (Nat.le_succ _)
    | false =>
      rw [List.dropWhile_cons_of_neg (by simp [hx])]

/-! ### C1: schema translation -/

/-- C1.  Translation succeeds deterministically on every schema whose column
types are all in the fixed map, producing the mapped Clickhouse type for each
column in source order; on a schema containing an unsupported column
(composite `RECORD`/`STRUCT` or any type absent from the map) it fails with
the `UnsupportedTableColumn` message naming the first offending column; and
the fixed map sends each supported BigQuery type to exactly the documented
Clickhouse type. -/
theorem get_bq_table_columns_spec (schema : List (String × String)) :
    (COLUMN_MAP "STRING" = some "String" ∧ COLUMN_MAP "FLOAT" = some "Float32" ∧
     COLUMN_MAP "FLOAT64" = some "Float64" ∧ COLUMN_MAP "INTEGER" = some "Int64" ∧
     COLUMN_MAP "INT64" = some "Int64" ∧ COLUMN_MAP "TIMESTAMP" = some "DateTime" ∧
     COLUMN_MAP "DATETIME" = some "DateTime" ∧ COLUMN_MAP "TIME" = some "DateTime" ∧
     COLUMN_MAP "DATE" = some "Date" ∧ COLUMN_MAP "BYTES" = some "String" ∧
     COLUMN_MAP "BOOL" = some "Boolean" ∧ COLUMN_MAP "BOOLEAN" = some "Boolean" ∧
     COLUMN_MAP "NUMERIC" = some "Decimal" ∧ COLUMN_MAP "DECIMAL" = some "Decimal" ∧
     COLUMN_MAP "BIGNUMERIC" = some "Decimal256" ∧
     COLUMN_MAP "BIGDECIMAL" = some "Decimal256" ∧
     COLUMN_MAP "JSON" = some "JSON" ∧
     COLUMN_MAP "RECORD" = none ∧ COLUMN_MAP "STRUCT" = none) ∧
    ((∀ p ∈ schema, supportedType p.2 = true) →
      get_bq_table_columns schema =
        Except.ok (schema.map (fun p => (p.1, (COLUMN_MAP p.2).getD "")))) ∧
    (∀ n t, firstUnsupported schema = some (n, t) →
      get_bq_table_columns schema = Except.error (unsupportedColumnMsg n t)) := by
  refine ⟨by decide, ?_, ?_⟩
  · induction schema with
    | nil => intro _; rfl
    | cons hd tl ih =>
      intro h
      obtain ⟨nm, ft⟩ := hd
      have hhd : supportedType ft = true := h (nm, ft) (List.mem_cons_self _ _)
      rw [supportedType, Option.isSome_iff_exists] at hhd
      obtain ⟨c, hc⟩ := hhd
      have htl := ih (fun p hp => h p (List.mem_cons_of_mem _ hp))
      have hrec : ¬(ft = "RECORD" ∨ ft = "STRUCT") := by
        rintro (rfl | rfl) <;> simp [COLUMN_MAP] at hc
      simp only [get_bq_table_columns, if_neg hrec, hc, htl, List.map_cons,
        Option.getD_some]
  · induction schema with
    | nil => intro n t h; simp [firstUnsupported] at h
    | cons hd tl ih =>
      intro n t h
      obtain ⟨nm, ft⟩ := hd
      rw [firstUnsupported, List.find?_cons] at h
      cases hsup : supportedType ft with
      | false =>
        obtain ⟨hn, ht⟩ : nm = n ∧ ft = t := by
          simpa [hsup, Prod.ext_iff] using h
        subst hn
        subst ht
        have hnone : COLUMN_MAP ft = none := by
          rw [supportedType] at hsup
          exact Option.not_isSome_iff_eq_none.mp (by simp [hsup])
        by_cases hrec : ft = "RECORD" ∨ ft = "STRUCT"
        · simp only [get_bq_table_columns, if_pos hrec]
        · simp only [get_bq_table_columns, if_neg hrec, hnone]
      | true =>
        rw [hsup] at h
        simp at h
        have htl := ih n t h
        rw [supportedType, Option.isSome_iff_exists] at hsup
        obtain ⟨c, hc⟩ := hsup
        have hrec : ¬(ft = "RECORD" ∨ ft = "STRUCT") := by
          rintro (rfl | rfl) <;> simp [COLUMN_MAP] at hc
        simp only [get_bq_table_columns, if_neg hrec, hc, htl]

/-- Witness for C1 at a concrete schema: a fully supported schema translates
to the mapped types in order, and a schema with a `RECORD` column fails
naming that column. -/
theorem get_bq_table_columns_spec_witness :
    get_bq_table_columns [("id", "INTEGER"), ("name", "STRING")] =
      Except.ok [("id", "Int64"), ("name", "String")] ∧
    get_bq_table_columns [("id", "INTEGER"), ("payload", "RECORD")] =
      Except.error (unsupportedColumnMsg "payload" "RECORD") := by
  constructor
  · exact (get_bq_table_columns_spec [("id", "INTEGER"), ("name", "STRING")]).2.1
      (by decide)
  · exact (get_bq_table_columns_spec [("id", "INTEGER"), ("payload", "RECORD")]).2.2
      "payload" "RECORD" (by decide)

/-! ### C3: staging table name length and trailing separator -/

/-- C3 counterexample.  For `destination_table_name = "t"` and
`sync_id = "x-"` the derived staging name is `"t_x_"`: it is within the
63-character limit but ends in the separator `'_'`, so the claim that the
name never ends in a separator is false. -/
theorem tempDest_trailing_sep_cex :
    ¬ ((tempDest "t" "x-").length ≤ 63 ∧
       (tempDest "t" "x-").data.getLast? ≠ some '_') := by
  intro h
  exact h.2 (by decide)

/-- C3 amended.  The derived staging name always has length at most 63; and
whenever the raw name `destination_table_name ++ "_" ++ normalized sync_id`
exceeds 63 characters (so that the truncation branch runs), the result never
ends in the separator `'_'`.  (An untruncated name can end in `'_'`, e.g.
when the sync_id is empty or ends in a dash or underscore.) -/
theorem tempDest_spec (d s : String) :
    (tempDest d s).length ≤ 63 ∧
    (63 < (d ++ "_" ++ pyReplaceDashUnderscore s).length →
      (tempDest d s).data.getLast? ≠ some '_') := by
  unfold tempDest
  by_cases h : (d ++ "_" ++ pyReplaceDashUnderscore s).length > 63
  · rw [if_pos h]
    constructor
    · show ((((d ++ "_" ++ pyReplaceDashUnderscore s).data.take 63).reverse.dropWhile
        (fun c => c = '_')).reverse).length ≤ 63
      rw [List.length_reverse]
      calc (((d ++ "_" ++ pyReplaceDashUnderscore s).data.take 63).reverse.dropWhile
              (fun c => c = '_')).length
          ≤ ((d ++ "_" ++ pyReplaceDashUnderscore s).data.take 63).reverse.length :=
            length_dropWhile_le' _ _
        _ ≤ 63 := by rw [List.length_reverse]; exact List.length_take_le _ _
    · intro _ hlast
      rw [show (pyRstripUnderscore (pySlice63 (d ++ "_" ++ pyReplaceDashUnderscore s))).data
            = (((d ++ "_" ++ pyReplaceDashUnderscore s).data.take 63).reverse.dropWhile
                (fun c => c = '_')).reverse from rfl] at hlast
      rw [List.getLast?_reverse] at hlast
      have := head?_dropWhile_ne (fun c => c = '_') _ _ hlast
      simp at this
  · rw [if_neg h]
    refine ⟨Nat.le_of_not_lt h, fun hgt => absurd hgt h⟩

/-- Witness for C3 at a concrete input long enough to trigger truncation:
the name stays within 63 characters and does not end in `'_'`. -/
theorem tempDest_spec_witness :
    63 < ("events" ++ "_" ++
      pyReplaceDashUnderscore
        "0123456789-0123456789-0123456789-0123456789-0123456789-0123456789").length ∧
    (tempDest "events"
      "0123456789-0123456789-0123456789-0123456789-0123456789-0123456789").length ≤ 63 ∧
    (tempDest "events"
      "0123456789-0123456789-0123456789-0123456789-0123456789-0123456789").data.getLast?
      ≠ some '_' :=
  ⟨by decide,
   (tempDest_spec "events"
      "0123456789-0123456789-0123456789-0123456789-0123456789-0123456789").1,
   (tempDest_spec "events"
      "0123456789-0123456789-0123456789-0123456789-0123456789-0123456789").2
     (by decide)⟩

/-! ### C4: staging table name injectivity in the sync_id -/

/-- C4 counterexample.  The sync_ids `"a-b"` and `"a_b"` are distinct but
yield the same staging name for destination table `"t"` (the dash is
normalized to an underscore before concatenation), so the map from sync_id
to staging name is not injective. -/
theorem tempDest_not_injective_cex :
    tempDest "t" "a-b" = tempDest "t" "a_b" ∧ ("a-b" : String) ≠ "a_b" := by
  constructor
  · rfl
  · decide

/-- C4 amended.  For a fixed destination table, two sync_ids yield distinct
staging names provided their normalized forms (dashes replaced by
underscores) are distinct and both raw names are within the 63-character
limit, so that neither normalization collisions nor truncation collisions
apply. -/
theorem tempDest_injective (d s₁ s₂ : String)
    (h₁ : (d ++ "_" ++ pyReplaceDashUnderscore s₁).length ≤ 63)
    (h₂ : (d ++ "_" ++ pyReplaceDashUnderscore s₂).length ≤ 63)
    (hne : pyReplaceDashUnderscore s₁ ≠ pyReplaceDashUnderscore s₂) :
    tempDest d s₁ ≠ tempDest d s₂ := by
  intro heq
  unfold tempDest at heq
  rw [if_neg (Nat.not_lt.mpr h₁), if_neg (Nat.not_lt.mpr h₂)] at heq
  have hdata := congrArg String.data heq
  simp only [String.data_append, List.append_assoc] at hdata
  have h₃ := List.append_cancel_left (List.append_cancel_left hdata)
  exact hne (String.ext h₃)

/-- Witness for C4 at concrete inputs: sync_ids `"run-1"` and `"run-2"`
yield distinct staging names for destination table `"t"`. -/
theorem tempDest_injective_witness :
    tempDest "t" "run-1" ≠ tempDest "t" "run-2" :=
  tempDest_injective "t" "run-1" "run-2" (by decide) (by decide) (by decide)

/-! ### The asset body as a trace semantics

`bq2clickhouse_asset` performs a fixed sequence of calls to three external
clients (BigQuery/GCS export, Clickhouse, GCS deletion).  We embed it as a
function from the asset configuration and the behaviour of those clients
(the fetched source schema, and which calls succeed) to the ordered list of
external calls performed, whether staged objects remain in GCS, and the
returned result.  A raised exception aborts the remaining calls and yields
no `MaterializeResult` (`none`). -/

/-- The fields of `Bq2ClickhouseAssetConfig` the asset body reads. -/
structure Bq2ClickhouseAssetConfig where
  sync_id : String
  destination_table_name : String
  staging_bucket : String
  index : Option (List (String × List String))
  deriving DecidableEq

/-- Mirrors `gcs_relative_dir` in the asset body:
`"%s/%s/%s" % (GCS_BUCKET_DIRECTORY, sync_id, destination_table_name)`. -/
def gcsRelativeDir (cfg : Bq2ClickhouseAssetConfig) : String :=
  GCS_BUCKET_DIRECTORY ++ "/" ++ cfg.sync_id ++ "/" ++ cfg.destination_table_name

/-- Mirrors `gcs_path` in the asset body: `"gs://%s/%s" % (bucket, dir)`. -/
def gcsPath (cfg : Bq2ClickhouseAssetConfig) : String :=
  "gs://" ++ cfg.staging_bucket ++ "/" ++ gcsRelativeDir cfg

/-- Modelled from the spec: `export_to_gcs` (defined in `..utils.bq`, which
is not among the analysed sources) writes shard files under the given
deterministic path and returns an object glob identifying them; none of the
verified claims depends on the glob's exact shape, so we model it as the
path itself. -/
def export_glob (gcs_path : String) : String := gcs_path

/-- Modelled from the spec: `gcs_to_http_url` (defined in `..utils.gcs`,
which is not among the analysed sources) derives a load-accessible URL from
an exported glob; none of the verified claims depends on the URL's exact
shape, so we model it as the glob itself. -/
def gcs_to_http_url (glob : String) : String := glob

/-- One external call made by the asset body, with its arguments. -/
inductive Event where
  | exportToGcs (gcs_path : String)
  | getColumns
  | createTable (name : String) (columns : List (String × String))
      (index : Option (List (String × List String))) (if_not_exists : Bool)
  | importData (table : String) (source_url : String)
  | dropTable (name : String)
  | renameTable (old new : String)
  | batchDeleteFolder (bucket folder : String)
  deriving DecidableEq

/-- Whether an event is a call to the destination (Clickhouse) engine. -/
def Event.isDestinationCall : Event → Bool
  | .createTable _ _ _ _ => true
  | .importData _ _ => true
  | .dropTable _ => true
  | .renameTable _ _ => true
  | _ => false

/-- Behaviour of the external clients during one run: the source table
schema returned by BigQuery, and which external calls succeed (a `false`
flag means the call raises). -/
structure Clients where
  schema : List (String × String)
  exportOk : Bool
  createDestOk : Bool
  createStagingOk : Bool
  importOk : Bool
  dropOk : Bool
  renameOk : Bool
  cleanupOk : Bool
  deriving DecidableEq

/-- The metadata of the `MaterializeResult` returned on success (the fields
the claims are about). -/
structure MaterializeResult where
  success : Bool
  clickhouse_temp_table : String
  deriving DecidableEq

/-- Outcome of one run: the ordered external calls performed, whether
staged objects remain under the job's GCS path, and the returned result
(`none` when an exception escaped the asset body). -/
structure RunOutcome where
  events : List Event
  gcsObjectsExist : Bool
  result : Option MaterializeResult
  deriving DecidableEq

/-- Mirrors the body of `bq2clickhouse_asset` in the source, step by step:
export to GCS, fetch and translate the schema, ensure the destination table
(`if_not_exists=True`), create the staging table (`if_not_exists=False`),
bulk-load, drop the live table, rename the staging table, delete the staged
GCS folder, and return the result metadata.  A failing call ends the run
with the calls made so far and no result. -/
def runAsset (cfg : Bq2ClickhouseAssetConfig) (cl : Clients) : RunOutcome :=
  let dir := gcsRelativeDir cfg
  let path := gcsPath cfg
  let ev₁ := [Event.exportToGcs path]
  if ! cl.exportOk then ⟨ev₁, false, none⟩ else
  let glob := export_glob path
  let ev₂ := ev₁ ++ [Event.getColumns]
  match get_bq_table_columns cl.schema with
  | Except.error _ => ⟨ev₂, true, none⟩
  | Except.ok columns =>
    let destination_table_name := cfg.destination_table_name
    let temp_dest := tempDest destination_table_name cfg.sync_id
    let source_url := gcs_to_http_url glob
    let ev₃ := ev₂ ++ [Event.createTable destination_table_name columns cfg.index true]
    if ! cl.createDestOk then ⟨ev₃, true, none⟩ else
    let ev₄ := ev₃ ++ [Event.createTable temp_dest columns cfg.index false]
    if ! cl.createStagingOk then ⟨ev₄, true, none⟩ else
    let ev₅ := ev₄ ++ [Event.importData temp_dest source_url]
    if ! cl.importOk then ⟨ev₅, true, none⟩ else
    let ev₆ := ev₅ ++ [Event.dropTable destination_table_name]
    if ! cl.dropOk then ⟨ev₆, true, none⟩ else
    let ev₇ := ev₆ ++ [Event.renameTable temp_dest destination_table_name]
    if ! cl.renameOk then ⟨ev₇, true, none⟩ else
    let ev₈ := ev₇ ++ [Event.batchDeleteFolder cfg.staging_bucket dir]
    if ! cl.cleanupOk then ⟨ev₈, true, none⟩ else
    ⟨ev₈, false, some ⟨true, temp_dest⟩⟩

/-- The translated columns of the run, or `[]` when translation fails (in
which case no event mentions them). -/
def colsOf (cl : Clients) : List (String × String) :=
  match get_bq_table_columns cl.schema with
  | Except.error _ => []
  | Except.ok columns => columns

/-- Number of external calls the run performs before stopping. -/
def callsMade (cl : Clients) : Nat :=
  if ! cl.exportOk then 1 else
  match get_bq_table_columns cl.schema with
  | Except.error _ => 2
  | Except.ok _ =>
    if ! cl.createDestOk then 3 else
    if ! cl.createStagingOk then 4 else
    if ! cl.importOk then 5 else
    if ! cl.dropOk then 6 else
    if ! cl.renameOk then 7 else 8

/-- Whether every stage, the final cleanup included, succeeds. -/
def fullySucceeds (cl : Clients) : Bool :=
  callsMade cl == 8 && cl.cleanupOk

/-- The full ordered call sequence of a run in which nothing fails. -/
def fullTrace (cfg : Bq2ClickhouseAssetConfig) (cols : List (String × String)) :
    List Event :=
  [Event.exportToGcs (gcsPath cfg),
   Event.getColumns,
   Event.createTable cfg.destination_table_name cols cfg.index true,
   Event.createTable (tempDest cfg.destination_table_name cfg.sync_id) cols cfg.index false,
   Event.importData (tempDest cfg.destination_table_name cfg.sync_id)
     (gcs_to_http_url (export_glob (gcsPath cfg))),
   Event.dropTable cfg.destination_table_name,
   Event.renameTable (tempDest cfg.destination_table_name cfg.sync_id)
     cfg.destination_table_name,
   Event.batchDeleteFolder cfg.staging_bucket (gcsRelativeDir cfg)]

/-- Characterization of a run: its events are the first `callsMade cl`
calls of the canonical sequence, staged objects remain exactly when the
export succeeded and the run did not fully succeed, and a result is
returned exactly on full success. -/
theorem runAsset_spec (cfg : Bq2ClickhouseAssetConfig) (cl : Clients) :
    runAsset cfg cl =
      ⟨(fullTrace cfg (colsOf cl)).take (callsMade cl),
       cl.exportOk && ! fullySucceeds cl,
       if fullySucceeds cl then
         some ⟨true, tempDest cfg.destination_table_name cfg.sync_id⟩
       else none⟩ := by
  obtain ⟨schema, eo, cd, cs, im, dr, rn, cu⟩ := cl
  cases eo <;> cases hg : get_bq_table_columns schema <;>
    cases cd <;> cases cs <;> cases im <;> cases dr <;> cases rn <;> cases cu <;>
      simp [runAsset, callsMade, colsOf, fullySucceeds, fullTrace, hg]

/-! ### Concrete runs used by witnesses and counterexamples -/

/-- A concrete asset configuration. -/
def cfgRun : Bq2ClickhouseAssetConfig := ⟨"sync-1", "dest", "bucket", none⟩

/-- Clients for a run in which every call succeeds. -/
def clAllOk : Clients := ⟨[("id", "INTEGER")], true, true, true, true, true, true, true⟩

/-- Clients for a run whose source schema has a composite column. -/
def clTranslateFail : Clients := ⟨[("x", "RECORD")], true, true, true, true, true, true, true⟩

/-- Clients for a run in which the bulk load raises. -/
def clImportFail : Clients := ⟨[("id", "INTEGER")], true, true, true, false, true, true, true⟩

/-- Clients for a run in which the rename raises. -/
def clRenameFail : Clients := ⟨[("id", "INTEGER")], true, true, true, true, true, false, true⟩

/-- Clients for a run in which only the final GCS cleanup raises. -/
def clCleanupFail : Clients := ⟨[("id", "INTEGER")], true, true, true, true, true, true, false⟩

/-! ### C2: behaviour after a translation failure -/

/-- C2 counterexample.  In a run whose schema translation fails (a `RECORD`
column), the staged objects written by the preceding `export_to_gcs` call
still exist at the job's deterministic staging path after the failure —
export runs before translation in the source — contradicting the claim
that no staging object exists there. -/
theorem translate_failure_staging_objects_cex :
    get_bq_table_columns clTranslateFail.schema =
      Except.error (unsupportedColumnMsg "x" "RECORD") ∧
    (runAsset cfgRun clTranslateFail).gcsObjectsExist = true := ⟨rfl, rfl⟩

/-- C2 amended.  In every run whose schema translation fails, the staging
cleaner `batch_delete_folder` is never invoked and no destination-engine
call is made; however, the staged objects written by the export (which runs
before translation) do exist at the job's deterministic staging path. -/
theorem translate_failure_no_mutation (cfg : Bq2ClickhouseAssetConfig) (cl : Clients)
    (e : String) (hexp : cl.exportOk = true)
    (herr : get_bq_table_columns cl.schema = Except.error e) :
    (∀ ev ∈ (runAsset cfg cl).events, ev.isDestinationCall = false) ∧
    (∀ b f, Event.batchDeleteFolder b f ∉ (runAsset cfg cl).events) ∧
    (runAsset cfg cl).gcsObjectsExist = true := by
  rw [runAsset_spec]
  simp [callsMade, colsOf, fullySucceeds, fullTrace, hexp, herr, Event.isDestinationCall]

/-- Witness for C2 at a concrete translation-failure run. -/
theorem translate_failure_no_mutation_witness :
    Event.batchDeleteFolder "bucket" (gcsRelativeDir cfgRun)
      ∉ (runAsset cfgRun clTranslateFail).events ∧
    (runAsset cfgRun clTranslateFail).gcsObjectsExist = true := by
  have h := translate_failure_no_mutation cfgRun clTranslateFail
    (unsupportedColumnMsg "x" "RECORD") rfl rfl
  exact ⟨h.2.1 "bucket" (gcsRelativeDir cfgRun), h.2.2⟩

/-! ### C5: frame condition of a bulk-load failure -/

/-- C5.  When the bulk load `import_data` raises, the live destination table
is untouched (`drop_table` and `rename_table` are never called), the staging
table still exists (it was created and no drop of any table occurs), and the
staged objects are not deleted (`batch_delete_folder` is never called and
the objects remain). -/
theorem import_failure_frame (cfg : Bq2ClickhouseAssetConfig) (cl : Clients)
    (cols : List (String × String))
    (hexp : cl.exportOk = true)
    (hcols : get_bq_table_columns cl.schema = Except.ok cols)
    (hcd : cl.createDestOk = true)
    (hcs : cl.createStagingOk = true)
    (himp : cl.importOk = false) :
    (∀ n, Event.dropTable n ∉ (runAsset cfg cl).events) ∧
    (∀ a b, Event.renameTable a b ∉ (runAsset cfg cl).events) ∧
    (∀ b f, Event.batchDeleteFolder b f ∉ (runAsset cfg cl).events) ∧
    Event.createTable (tempDest cfg.destination_table_name cfg.sync_id) cols cfg.index false
      ∈ (runAsset cfg cl).events ∧
    (runAsset cfg cl).gcsObjectsExist = true := by
  rw [runAsset_spec]
  simp [callsMade, colsOf, fullySucceeds, fullTrace, hexp, hcols, hcd, hcs, himp]

/-- Witness for C5 at a concrete bulk-load-failure run. -/
theorem import_failure_frame_witness :
    Event.dropTable "dest" ∉ (runAsset cfgRun clImportFail).events ∧
    Event.createTable (tempDest "dest" "sync-1") [("id", "Int64")] none false
      ∈ (runAsset cfgRun clImportFail).events ∧
    (runAsset cfgRun clImportFail).gcsObjectsExist = true := by
  have h := import_failure_frame cfgRun clImportFail [("id", "Int64")] rfl rfl rfl rfl rfl
  exact ⟨h.1 "dest", h.2.2.2.1, h.2.2.2.2⟩

/-! ### C6: a cleanup failure after a successful swap -/

/-- C6 counterexample.  In a run in which every step succeeds except the
final `batch_delete_folder`, the swap completed (`rename_table` was called)
but no result record is produced at all — the cleanup exception escapes the
asset body — contradicting the claim that the run still produces a result
record with the success of the swap and a soft-failure field. -/
theorem cleanup_failure_cex :
    Event.renameTable (tempDest "dest" "sync-1") "dest"
      ∈ (runAsset cfgRun clCleanupFail).events ∧
    (runAsset cfgRun clCleanupFail).result = none := ⟨by decide, rfl⟩

/-- C6 amended.  A failure of `batch_delete_folder` after a successful swap
is fatal to the run: the exception propagates out of the asset body, so no
result record is produced (there is no soft-failure field; the returned
metadata reports `success = True` only when every step, cleanup included,
succeeded). -/
theorem cleanup_failure_fatal (cfg : Bq2ClickhouseAssetConfig) (cl : Clients)
    (cols : List (String × String))
    (hexp : cl.exportOk = true)
    (hcols : get_bq_table_columns cl.schema = Except.ok cols)
    (hcd : cl.createDestOk = true) (hcs : cl.createStagingOk = true)
    (himp : cl.importOk = true) (hdr : cl.dropOk = true) (hrn : cl.renameOk = true)
    (hcu : cl.cleanupOk = false) :
    Event.renameTable (tempDest cfg.destination_table_name cfg.sync_id)
        cfg.destination_table_name ∈ (runAsset cfg cl).events ∧
    Event.batchDeleteFolder cfg.staging_bucket (gcsRelativeDir cfg)
      ∈ (runAsset cfg cl).events ∧
    (runAsset cfg cl).result = none := by
  rw [runAsset_spec]
  simp [callsMade, colsOf, fullySucceeds, fullTrace, hexp, hcols, hcd, hcs, himp, hdr,
    hrn, hcu]

/-- Witness for C6 at a concrete cleanup-failure run. -/
theorem cleanup_failure_fatal_witness :
    Event.renameTable (tempDest "dest" "sync-1") "dest"
      ∈ (runAsset cfgRun clCleanupFail).events ∧
    Event.batchDeleteFolder "bucket" (gcsRelativeDir cfgRun)
      ∈ (runAsset cfgRun clCleanupFail).events ∧
    (runAsset cfgRun clCleanupFail).result = none :=
  cleanup_failure_fatal cfgRun clCleanupFail [("id", "Int64")] rfl rfl rfl rfl rfl rfl rfl rfl

/-! ### C7: the three load-stage destination operations -/

/-- C7.  In every run that reaches the load stage, the first three
destination-engine operations, in order, are: create the live destination
table with `if_not_exists = True`, create the staging table with
`if_not_exists = False`, and bulk-load the exported artifact into the
staging table. -/
theorem load_stage_operations (cfg : Bq2ClickhouseAssetConfig) (cl : Clients)
    (cols : List (String × String))
    (hexp : cl.exportOk = true)
    (hcols : get_bq_table_columns cl.schema = Except.ok cols)
    (hcd : cl.createDestOk = true)
    (hcs : cl.createStagingOk = true) :
    ((runAsset cfg cl).events.filter Event.isDestinationCall).take 3 =
      [Event.createTable cfg.destination_table_name cols cfg.index true,
       Event.createTable (tempDest cfg.destination_table_name cfg.sync_id) cols
         cfg.index false,
       Event.importData (tempDest cfg.destination_table_name cfg.sync_id)
         (gcs_to_http_url (export_glob (gcsPath cfg)))] := by
  rw [runAsset_spec]
  cases him : cl.importOk <;> cases hdr : cl.dropOk <;> cases hrn : cl.renameOk <;>
    simp [callsMade, colsOf, fullySucceeds, fullTrace, hexp, hcols, hcd, hcs, him, hdr,
      hrn, Event.isDestinationCall]

/-- Witness for C7 at a concrete fully successful run. -/
theorem load_stage_operations_witness :
    ((runAsset cfgRun clAllOk).events.filter Event.isDestinationCall).take 3 =
      [Event.createTable "dest" [("id", "Int64")] none true,
       Event.createTable (tempDest "dest" "sync-1") [("id", "Int64")] none false,
       Event.importData (tempDest "dest" "sync-1")
         (gcs_to_http_url (export_glob (gcsPath cfgRun)))] :=
  load_stage_operations cfgRun clAllOk [("id", "Int64")] rfl rfl rfl rfl

/-! ### C8: stage order and halting -/

/-- C8 counterexample.  A run whose schema translation fails has already
performed the export: the trace is exactly
`[exportToGcs, getColumns]`, so the export stage runs before the
translation stage, contradicting the claimed order
Translate → Export (under which a failing translation would imply no
export call). -/
theorem pipeline_order_cex :
    get_bq_table_columns clTranslateFail.schema =
      Except.error (unsupportedColumnMsg "x" "RECORD") ∧
    (runAsset cfgRun clTranslateFail).events =
      [Event.exportToGcs (gcsPath cfgRun), Event.getColumns] := ⟨rfl, rfl⟩

/-- C8 amended.  Every run executes its stages in the order
Export → Translate → Load(ensure-destination, create-staging, bulk-load) →
Swap(drop, rename) → Cleanup, halting at the first failing stage: the trace
is always the prefix of the canonical call sequence of length equal to the
number of calls made before the first failure. -/
theorem pipeline_stage_order (cfg : Bq2ClickhouseAssetConfig) (cl : Clients) :
    (runAsset cfg cl).events = (fullTrace cfg (colsOf cl)).take (callsMade cl) := by
  rw [runAsset_spec]

/-! ### C9: cleanup only after a fully successful swap -/

/-- C9.  The staged GCS objects are deleted only after the swap fully
succeeded: any `batch_delete_folder` call is the last call of the run and is
preceded by successful `drop_table` and `rename_table` calls; and on any
failure before or during the swap (at most 7 calls made) the staged objects
are preserved. -/
theorem cleanup_only_after_swap (cfg : Bq2ClickhouseAssetConfig) (cl : Clients) :
    (∀ b f, Event.batchDeleteFolder b f ∈ (runAsset cfg cl).events →
      cl.dropOk = true ∧ cl.renameOk = true ∧
      ∃ pre, (runAsset cfg cl).events = pre ++ [Event.batchDeleteFolder b f] ∧
        Event.dropTable cfg.destination_table_name ∈ pre ∧
        Event.renameTable (tempDest cfg.destination_table_name cfg.sync_id)
          cfg.destination_table_name ∈ pre) ∧
    (cl.exportOk = true → callsMade cl ≤ 7 →
      (runAsset cfg cl).gcsObjectsExist = true) := by
  constructor
  · intro b f hmem
    cases heo : cl.exportOk with
    | false =>
      rw [runAsset_spec] at hmem
      simp [callsMade, heo, fullTrace] at hmem
    | true =>
    cases hg : get_bq_table_columns cl.schema with
    | error e =>
      rw [runAsset_spec] at hmem
      simp [callsMade, heo, hg, fullTrace] at hmem
    | ok val =>
    cases hcd : cl.createDestOk with
    | false =>
      rw [runAsset_spec] at hmem
      simp [callsMade, heo, hg, hcd, fullTrace] at hmem
    | true =>
    cases hcs : cl.createStagingOk with
    | false =>
      rw [runAsset_spec] at hmem
      simp [callsMade, heo, hg, hcd, hcs, fullTrace] at hmem
    | true =>
    cases him : cl.importOk with
    | false =>
      rw [runAsset_spec] at hmem
      simp [callsMade, heo, hg, hcd, hcs, him, fullTrace] at hmem
    | true =>
    cases hdr : cl.dropOk with
    | false =>
      rw [runAsset_spec] at hmem
      simp [callsMade, heo, hg, hcd, hcs, him, hdr, fullTrace] at hmem
    | true =>
    cases hrn : cl.renameOk with
    | false =>
      rw [runAsset_spec] at hmem
      simp [callsMade, heo, hg, hcd, hcs, him, hdr, hrn, fullTrace] at hmem
    | true =>
      rw [runAsset_spec] at hmem
      simp [callsMade, heo, hg, hcd, hcs, him, hdr, hrn, fullTrace, colsOf] at hmem
      obtain ⟨rfl, rfl⟩ := hmem
      refine ⟨rfl, rfl,
        [Event.exportToGcs (gcsPath cfg), Event.getColumns,
         Event.createTable cfg.destination_table_name val cfg.index true,
         Event.createTable (tempDest cfg.destination_table_name cfg.sync_id) val
           cfg.index false,
         Event.importData (tempDest cfg.destination_table_name cfg.sync_id)
           (gcs_to_http_url (export_glob (gcsPath cfg))),
         Event.dropTable cfg.destination_table_name,
         Event.renameTable (tempDest cfg.destination_table_name cfg.sync_id)
           cfg.destination_table_name], ?_, ?_, ?_⟩
      · rw [runAsset_spec]
        simp [callsMade, heo, hg, hcd, hcs, him, hdr, hrn, fullTrace, colsOf]
      · simp
      · simp
  · intro hexp hk
    rw [runAsset_spec]
    have h8 : (callsMade cl == 8) = false := by
      simp only [beq_eq_false_iff_ne]
      omega
    simp [fullySucceeds, hexp, h8]

/-- Witness for C9 at a concrete run that fails during the swap: the staged
objects are preserved. -/
theorem cleanup_only_after_swap_witness :
    clRenameFail.exportOk = true ∧ callsMade clRenameFail ≤ 7 ∧
    (runAsset cfgRun clRenameFail).gcsObjectsExist = true :=
  ⟨rfl, by decide, (cleanup_only_after_swap cfgRun clRenameFail).2 rfl (by decide)⟩

/-! ### C10: the two created tables share schema and index -/

/-- C10.  In every run reaching the load stage, the ensure-destination
`create_table` call (with `if_not_exists = True`) and the staging
`create_table` call (with `if_not_exists = False`) receive exactly the same
translated column schema and the same index specification. -/
theorem staging_schema_consistency (cfg : Bq2ClickhouseAssetConfig) (cl : Clients)
    (cols : List (String × String))
    (hexp : cl.exportOk = true)
    (hcols : get_bq_table_columns cl.schema = Except.ok cols)
    (hcd : cl.createDestOk = true) :
    Event.createTable cfg.destination_table_name cols cfg.index true
      ∈ (runAsset cfg cl).events ∧
    Event.createTable (tempDest cfg.destination_table_name cfg.sync_id) cols cfg.index false
      ∈ (runAsset cfg cl).events := by
  rw [runAsset_spec]
  cases hcs : cl.createStagingOk <;> cases him : cl.importOk <;> cases hdr : cl.dropOk <;>
    cases hrn : cl.renameOk <;>
      simp [callsMade, colsOf, fullySucceeds, fullTrace, hexp, hcols, hcd, hcs, him, hdr, hrn]

/-- Witness for C10 at a concrete fully successful run. -/
theorem staging_schema_consistency_witness :
    Event.createTable "dest" [("id", "Int64")] none true
      ∈ (runAsset cfgRun clAllOk).events ∧
    Event.createTable (tempDest "dest" "sync-1") [("id", "Int64")] none false
      ∈ (runAsset cfgRun clAllOk).events :=
  staging_schema_consistency cfgRun clAllOk [("id", "Int64")] rfl rfl rfl

end Oso
